import Mathlib

/-!
Verification development for the `smart_heating` predictive-preheating core
(`custom_components/smart_heating`): the thermal learning model
(`thermal_model.py`), the feedback loop (`feedback.py`), the anticipation
state machine (`anticipation.py`) and the schedule resolver
(`schedule_parser.py`).

Modelling conventions:
* Python floats are idealized as exact rationals (`ℚ`).
* Python's built-in `round` (banker's rounding, round-half-to-even) is
  modelled explicitly by `pyRound` / `pyRoundTo`; it is *not* `ceil`.
* `datetime` values are modelled as rational timestamps measured in minutes,
  so `(t1 - t2).total_seconds() / 60` becomes `t1 - t2`; string formatting of
  dates (`strftime` / `isoformat`) is outside the embedding and the `date`
  fields of records are kept as opaque strings.
* `None`-able Python values are `Option`s.
-/

/-- Python's `round(q)` to an integer: round half to even (banker's rounding).
For exact (rational) inputs this is floor when the fractional part is below
one half, floor+1 when above, and the even neighbour on an exact tie. -/
def pyRound (q : ℚ) : ℤ :=
  let n := ⌊q⌋
  let f := q - (n : ℚ)
  if f < 1/2 then n
  else if 1/2 < f then n + 1
  else if n % 2 = 0 then n else n + 1

/-- Python's `round(q, nd)` for `nd` decimal digits. -/
def pyRoundTo (nd : ℕ) (q : ℚ) : ℚ :=
  ((pyRound (q * (10 : ℚ) ^ nd) : ℚ)) / (10 : ℚ) ^ nd

/-- Arithmetic mean of a list of rationals (Python `statistics.mean`;
callers in the source always guard against the empty list). -/
def listMean (l : List ℚ) : ℚ := l.sum / (l.length : ℚ)

/-- Insert into a sorted list (helper for `listMedian`). -/
def insertSorted (a : ℚ) : List ℚ → List ℚ
  | [] => [a]
  | b :: t => if a ≤ b then a :: b :: t else b :: insertSorted a t

/-- Insertion sort (ascending), modelling Python's `sorted`. -/
def sortAsc : List ℚ → List ℚ
  | [] => []
  | a :: t => insertSorted a (sortAsc t)

/-- Python `statistics.median`: middle element of the sorted list for odd
length, mean of the two middle elements for even length (callers in the
source always guard against the empty list). -/
def listMedian (l : List ℚ) : ℚ :=
  let s := sortAsc l
  let n := s.length
  if n % 2 = 1 then s.getD (n / 2) 0
  else (s.getD (n / 2 - 1) 0 + s.getD (n / 2) 0) / 2

/-- Python `l[-n:]`: the last `n` elements of a list. -/
def lastN (n : ℕ) (l : List α) : List α := l.drop (l.length - n)

/-! ## thermal_model.py -/

/-- `HeatingSession` record (`thermal_model.py`). The `points` list is only
appended to by the coordinator and never read by the model's logic, so it is
omitted here. -/
structure HeatingSession where
  date : String := ""
  temp_start : ℚ := 0
  temp_end : ℚ := 0
  temp_ext_avg : ℚ := 0
  delta_temp : ℚ := 0
  duration_min : ℚ := 0
  speed_degc_per_min : ℚ := 0
  anticipated : Bool := false
  deriving Repr, DecidableEq

/-- Raw persisted dict for a session, as consumed by
`HeatingSession.from_dict`: every key may be absent. -/
structure SessionData where
  date : Option String := none
  temp_start : Option ℚ := none
  temp_end : Option ℚ := none
  temp_ext_avg : Option ℚ := none
  delta_temp : Option ℚ := none
  duration_min : Option ℚ := none
  speed_degc_per_min : Option ℚ := none
  anticipated : Option Bool := none
  deriving Repr, DecidableEq

/-- `HeatingSession.from_dict`: `data.get(key, default)` for each field. -/
def HeatingSession.from_dict (d : SessionData) : HeatingSession :=
  { date := d.date.getD ""
    temp_start := d.temp_start.getD 0
    temp_end := d.temp_end.getD 0
    temp_ext_avg := d.temp_ext_avg.getD 0
    delta_temp := d.delta_temp.getD 0
    duration_min := d.duration_min.getD 0
    speed_degc_per_min := d.speed_degc_per_min.getD 0
    anticipated := d.anticipated.getD false }

/-- `ThermalModel`: the `_inertia` cache is recomputed from `sessions` by
`_recalculate` after every mutation, so it is represented here by derived
functions of `sessions` rather than by a stored field. -/
structure ThermalModel where
  sessions : List HeatingSession := []
  deriving Repr, DecidableEq

namespace ThermalModel

/-- The `valid` filter of `_recalculate`: sessions with positive speed and
duration at least 5 minutes. -/
def valid_sessions (m : ThermalModel) : List HeatingSession :=
  m.sessions.filter (fun s => s.speed_degc_per_min > 0 ∧ s.duration_min ≥ 5)

/-- The `avg_speed` property: `_inertia["avg_speed"]`, i.e.
`round(statistics.mean(speeds), 5)` over valid sessions, and `None` when
`_recalculate` left `_inertia` empty (no sessions, or none valid). -/
def avg_speed (m : ThermalModel) : Option ℚ :=
  if m.valid_sessions = [] then none
  else some (pyRoundTo 5 (listMean (m.valid_sessions.map (·.speed_degc_per_min))))

/-- `ThermalModel._get_speed_for_ext_temp`: median speed of the sessions whose
average outdoor temperature is within 5 of the query's 5-degree bucket, else
the global `avg_speed`. -/
def get_speed_for_ext_temp (m : ThermalModel) (ext_temp : ℚ) : Option ℚ :=
  if m.sessions = [] then none
  else
    let bucket : ℚ := ((pyRound (ext_temp / 5) : ℤ) : ℚ) * 5
    let nearby_sessions := m.sessions.filter (fun s => |s.temp_ext_avg - bucket| ≤ 5)
    let speeds := (nearby_sessions.map (·.speed_degc_per_min)).filter (· > 0)
    if nearby_sessions ≠ [] ∧ speeds ≠ [] then some (listMedian speeds)
    else m.avg_speed

/-- `ThermalModel.estimate_time_to_target`. -/
def estimate_time_to_target (m : ThermalModel)
    (current_temp target_temp ext_temp : ℚ) (margin : ℚ := 23/20) : Option ℚ :=
  let delta := target_temp - current_temp
  if delta ≤ 0 then some 0
  else
    match m.get_speed_for_ext_temp ext_temp with
    | none => none
    | some speed =>
      if speed ≤ 0 then none
      else some ((pyRound (delta / speed * margin) : ℤ) : ℚ)

/-- `ThermalModel.load_sessions`: replaces the history with the decoded list,
with no capacity enforcement. -/
def load_sessions (data : List SessionData) : ThermalModel :=
  { sessions := data.map HeatingSession.from_dict }

/-- `ThermalModel.add_session`: append, then keep only the last 100. -/
def add_session (m : ThermalModel) (session : HeatingSession) : ThermalModel :=
  let l := m.sessions ++ [session]
  { sessions := if l.length > 100 then l.drop (l.length - 100) else l }

end ThermalModel

/-! ## feedback.py -/

/-- `TARGET_EARLY_MINUTES` is documentation only; these two constants drive
the logic. -/
def MARGIN_ADJUST_STEP : ℚ := 1/50

def MAX_HISTORY : ℕ := 30

/-- `AnticipationResult` record (`feedback.py`). `target_time` and
`actual_arrival_time` are ISO strings in the source; they are modelled as
rational timestamps in minutes, and `date` (a formatted string of `now`)
is kept opaque. -/
structure AnticipationResult where
  date : String := ""
  target_temp : ℚ := 0
  actual_temp_at_target_time : ℚ := 0
  temp_at_start : ℚ := 0
  target_time : ℚ := 0
  actual_arrival_time : Option ℚ := none
  minutes_early : ℚ := 0
  margin_used : ℚ := 0
  llm_adjustment : ℚ := 0
  ext_temp_avg : ℚ := 0
  success : Bool := false
  deriving Repr, DecidableEq

/-- The `_pending_start` dict captured by `FeedbackLoop.start_tracking`
(`started_at` is never read back, so it is omitted). -/
structure PendingStart where
  target_temp : ℚ := 0
  target_time : ℚ := 0
  temp_at_start : ℚ := 0
  margin_used : ℚ := 0
  llm_adjustment : ℚ := 0
  ext_temp : ℚ := 0
  deriving Repr, DecidableEq

/-- `FeedbackLoop` state. -/
structure FeedbackLoop where
  zone_name : String := ""
  history : List AnticipationResult := []
  pending_start : Option PendingStart := none
  deriving Repr, DecidableEq

namespace FeedbackLoop

/-- `FeedbackLoop.start_tracking`. -/
def start_tracking (fb : FeedbackLoop) (target_temp target_time temp_at_start
    margin_used llm_adjustment ext_temp : ℚ) : FeedbackLoop :=
  let p : PendingStart :=
    { target_temp := target_temp, target_time := target_time,
      temp_at_start := temp_at_start, margin_used := margin_used,
      llm_adjustment := llm_adjustment, ext_temp := ext_temp }
  { fb with pending_start := some p }

/-- The `AnticipationResult` built by `FeedbackLoop.record_result` out of the
pending entry. With times in minutes, `(target_time - now).total_seconds()/60`
is `target_time - now`. -/
def mkResult (p : PendingStart) (now current_temp : ℚ)
    (reached_target : Bool) : AnticipationResult :=
  let minutes_early : ℚ :=
    if reached_target then p.target_time - now else -(now - p.target_time)
  { date := ""
    target_temp := p.target_temp
    actual_temp_at_target_time := current_temp
    temp_at_start := p.temp_at_start
    target_time := p.target_time
    actual_arrival_time := if reached_target then some now else none
    minutes_early := pyRoundTo 1 minutes_early
    margin_used := p.margin_used
    llm_adjustment := p.llm_adjustment
    ext_temp_avg := p.ext_temp
    success := reached_target }

/-- `FeedbackLoop.record_result`: close the pending observation, append the
result and keep only the last `MAX_HISTORY` entries. Returns the updated
loop together with the result (`None` when nothing was pending). -/
def record_result (fb : FeedbackLoop) (now current_temp : ℚ)
    (reached_target : Bool) : FeedbackLoop × Option AnticipationResult :=
  match fb.pending_start with
  | none => (fb, none)
  | some p =>
    let result := mkResult p now current_temp reached_target
    let h := fb.history ++ [result]
    let h := if h.length > MAX_HISTORY then h.drop (h.length - MAX_HISTORY) else h
    ({ fb with history := h, pending_start := none }, some result)

/-- `FeedbackLoop.get_margin_suggestion`. The source filter
`r.success is not None` keeps every record, since `success` is a plain bool
on every constructed result, so `recent` is exactly the last 10 entries. -/
def get_margin_suggestion (fb : FeedbackLoop) : Option ℚ :=
  let recent := lastN 10 fb.history
  if recent.length < 3 then none
  else
    let avg_early := listMean (recent.map (·.minutes_early))
    let success_rate : ℚ :=
      ((recent.filter (·.success)).length : ℚ) / (recent.length : ℚ)
    let adjustment : ℚ :=
      if avg_early > 10 then -MARGIN_ADJUST_STEP * 2
      else if avg_early > 5 then -MARGIN_ADJUST_STEP
      else if avg_early < 0 then MARGIN_ADJUST_STEP * 2
      else if avg_early < 2 then MARGIN_ADJUST_STEP
      else 0
    let adjustment :=
      if success_rate < 7/10 then max adjustment (MARGIN_ADJUST_STEP * 2)
      else adjustment
    some (pyRoundTo 3 adjustment)

end FeedbackLoop

/-! ## anticipation.py -/

/-- `AnticipationState` (`anticipation.py`); times are rational timestamps in
minutes. -/
structure AnticipationState where
  active : Bool := false
  target_consigne : Option ℚ := none
  target_time : Option ℚ := none
  minutes_needed : Option ℚ := none
  minutes_until_target : Option ℚ := none
  optimal_start_time : Option ℚ := none
  started_at : Option ℚ := none
  temp_at_start : Option ℚ := none
  deriving Repr, DecidableEq

/-- Mutable fields of `AnticipationEngine` that the control logic reads and
writes (`hass`, entity ids and the anti-cycle configuration are environment
handles / constructor constants). -/
structure AnticipationEngine where
  state : AnticipationState := {}
  last_consigne_sent : Option ℚ := none
  last_consigne_sent_time : Option ℚ := none
  deriving Repr, DecidableEq

/-- The external world visible to one `async_evaluate` call:
`_get_current_consigne` (schedule entity state parsed as a float, collapsing
missing / unavailable / non-numeric into `none`), `_get_climate_setpoint`
(climate entity `temperature` attribute, same collapsing), and whether the
`climate.set_temperature` service call succeeds or raises. -/
structure EngineEnv where
  schedule_value : Option ℚ := none
  climate_setpoint : Option ℚ := none
  send_ok : Bool := true
  deriving Repr, DecidableEq

namespace AnticipationEngine

/-- `AnticipationEngine._send_consigne`: on success the last-sent value and
time are recorded; on a raised service-call error the exception is caught and
nothing is written (`self.state` is never touched either way). -/
def send_consigne (eng : AnticipationEngine) (temperature now : ℚ)
    (send_ok : Bool) : AnticipationEngine :=
  if send_ok then
    { eng with last_consigne_sent := some temperature,
               last_consigne_sent_time := some now }
  else eng

/-- `AnticipationEngine._deactivate`. -/
def deactivate (eng : AnticipationEngine) : AnticipationEngine :=
  { eng with state := {}, last_consigne_sent := none,
             last_consigne_sent_time := none }

/-- The resend decision of the Active branch of `async_evaluate`: more than
600 seconds (10 minutes) since the last command, or no command sent yet, or
the climate entity's reported setpoint drifted from the target by more
than 0.3. -/
def should_resend (eng : AnticipationEngine) (env : EngineEnv) (now : ℚ) : Bool :=
  let base : Bool :=
    match eng.last_consigne_sent_time with
    | none => true
    | some t => decide ((now - t) * 60 > 600)
  match env.climate_setpoint, eng.state.target_consigne with
  | some climate_setpoint, some target_consigne =>
    if |climate_setpoint - target_consigne| > 3/10 then true else base
  | _, _ => base

/-- The part of `async_evaluate` reached when data is present, the target is
not yet reached, and the anti-cycle gate did not return early: decide
`should_start`, then start / keep-active / deactivate. -/
def evaluate_body (eng : AnticipationEngine) (env : EngineEnv)
    (now temp_indoor minutes_needed next_consigne : ℚ)
    (target_time : Option ℚ) : AnticipationEngine :=
  let no_target : Bool × Option ℚ :=
    match env.schedule_value with
    | some current_sched =>
      if next_consigne > current_sched + 3/10 then
        (true, some (now + minutes_needed))
      else (false, target_time)
    | none => (false, target_time)
  let decision : Bool × Option ℚ :=
    match target_time with
    | some tt =>
      if minutes_needed > 0 then
        if tt - now - minutes_needed ≤ 2 ∨ tt - now < 0 then (true, some tt)
        else (false, some tt)
      else no_target
    | none => no_target
  let should_start := decision.1
  let estimated_target_time := decision.2
  if should_start ∧ eng.state.active = false then
    if next_consigne - temp_indoor > 3/10 ∧ minutes_needed > 0 then
      let ett := estimated_target_time.getD (now + minutes_needed)
      let eng1 := { eng with state :=
        { active := true
          target_consigne := some next_consigne
          target_time := some ett
          minutes_needed := some minutes_needed
          minutes_until_target := some minutes_needed
          optimal_start_time := some now
          started_at := some now
          temp_at_start := some temp_indoor } }
      eng1.send_consigne next_consigne now env.send_ok
    else eng
  else if eng.state.active then
    if should_start ∨ (next_consigne ≠ 0 ∧ temp_indoor < next_consigne - 1/5) then
      let remaining : ℚ :=
        max 0 (match eng.state.target_time with
               | some t => t - now
               | none => 0)
      let eng1 := { eng with state :=
        { eng.state with minutes_until_target := some remaining } }
      match eng1.state.target_consigne with
      | some target_consigne =>
        if eng1.should_resend env now ∧ target_consigne ≠ 0 then
          eng1.send_consigne target_consigne now env.send_ok
        else eng1
      | none => eng1
    else eng.deactivate
  else eng

/-- `AnticipationEngine.async_evaluate`. Python truthiness notes: the
kept-active condition `should_start or (next_consigne and temp_indoor <
next_consigne - 0.2)` is falsy when `next_consigne == 0.0`, and the resend
guard `should_resend and self.state.target_consigne` is falsy when the target
consigne is `0.0`; both are modelled with explicit `≠ 0` tests. -/
def async_evaluate (eng : AnticipationEngine) (env : EngineEnv) (now : ℚ)
    (temp_indoor temp_outdoor minutes_needed next_consigne : Option ℚ)
    (is_anti_cycle_active : Bool) (target_time : Option ℚ := none)
    (effective_margin : ℚ := 23/20) : AnticipationEngine :=
  match temp_indoor, next_consigne, minutes_needed with
  | some ti, some nc, some mn =>
    if ti ≥ nc - 1/5 then
      if eng.state.active then eng.deactivate else eng
    else if is_anti_cycle_active ∧ eng.state.active = false then eng
    else evaluate_body eng env now ti mn nc target_time
  | _, _, _ =>
    if eng.state.active then
      { eng with state := { eng.state with active := false } }
    else eng

end AnticipationEngine

/-! ## schedule_parser.py -/

/-- `NextTransition` (`schedule_parser.py`), times in rational minutes. -/
structure NextTransition where
  target_time : Option ℚ
  target_temp : ℚ
  current_temp_schedule : ℚ
  source : String
  deriving Repr, DecidableEq

/-- What `ScheduleParser` reads from the schedule entity: `value` is
`float(state.state)` collapsed to `none` for a missing / unavailable /
unknown entity or a non-numeric state; `comfort` and `eco` are the parsed
`comfort_temp`/`comfort` and `eco_temp`/`eco` attributes (`none` when absent
or non-numeric, matching the caught `ValueError`/`TypeError`). -/
structure SchedState where
  value : Option ℚ := none
  comfort : Option ℚ := none
  eco : Option ℚ := none
  deriving Repr, DecidableEq

namespace ScheduleParser

/-- `ScheduleParser._parse_vtherm_attrs`: if in (or near) eco and comfort is
more than 0.3 above eco, the next transition is to comfort at an unknown
time. -/
def parse_vtherm_attrs (st : SchedState) (current_consigne : ℚ) :
    Option NextTransition :=
  match st.comfort, st.eco with
  | some comfort, some eco =>
    if current_consigne ≤ eco + 3/10 ∧ comfort > eco + 3/10 then
      some { target_time := none, target_temp := comfort,
             current_temp_schedule := current_consigne,
             source := "vtherm_preset" }
    else none
  | _, _ => none

/-- `ScheduleParser.get_next_heating_transition`. The event-list strategy
`_parse_schedule_state` depends on the wall clock and the entity's event
attributes; its outcome is passed in as `events_result` (a dataclass instance
is always truthy, so any non-`None` result is returned as-is). -/
def get_next_heating_transition (st : SchedState)
    (events_result : Option NextTransition) : Option NextTransition :=
  match st.value with
  | none => none
  | some current_consigne =>
    match events_result with
    | some transition => some transition
    | none =>
      match parse_vtherm_attrs st current_consigne with
      | some transition => some transition
      | none =>
        some { target_time := none, target_temp := current_consigne,
               current_temp_schedule := current_consigne,
               source := "current_only" }

end ScheduleParser

/-! ## Concrete fixtures for witnesses and counterexamples -/

/-- A recorded session with speed 0.05 °C/min at outdoor average 5 °C. -/
def fxSession1 : HeatingSession :=
  { temp_ext_avg := 5, duration_min := 40, speed_degc_per_min := 1/20 }

/-- A recorded session with speed 0.06 °C/min at outdoor average 5.2 °C. -/
def fxSession2 : HeatingSession :=
  { temp_ext_avg := 26/5, duration_min := 40, speed_degc_per_min := 3/50 }

/-- A recorded session with speed 0.055 °C/min at outdoor average 4.9 °C. -/
def fxSession3 : HeatingSession :=
  { temp_ext_avg := 49/10, duration_min := 40, speed_degc_per_min := 11/200 }

/-- The spec's scenario history: speeds [0.05, 0.06, 0.055] at outdoor ≈ 5. -/
def fxScenarioModel : ThermalModel := { sessions := [fxSession1, fxSession2, fxSession3] }

/-- A model with a single session of speed 0.05 at outdoor 5. -/
def fxSingleModel : ThermalModel := { sessions := [fxSession1] }

/-- An anticipation result: arrived 3 minutes early, success. -/
def fxResOk : AnticipationResult := { minutes_early := 3, success := true }

/-- An anticipation result: arrived 1 minute early, success. -/
def fxResClose : AnticipationResult := { minutes_early := 1, success := true }

/-- An anticipation result: 4 minutes late, failure. -/
def fxResLate : AnticipationResult := { minutes_early := -4, success := false }

/-- A feedback history with three just-in-time results (mean early 1,
success rate 2/3 < 70%). -/
def fxFeedbackLoShort : FeedbackLoop :=
  { history := [fxResClose, fxResClose, fxResLate] }

/-- A feedback loop holding 30 results and one pending observation. -/
def fxFeedbackFull : FeedbackLoop :=
  { history := List.replicate 30 fxResOk, pending_start := some {} }

/-- A feedback loop holding an oversized (35-entry) history and one pending
observation. -/
def fxFeedbackOver : FeedbackLoop :=
  { history := List.replicate 35 fxResOk, pending_start := some {} }

/-- An idle anticipation engine. -/
def fxEngineIdle : AnticipationEngine := {}

/-- An engine in the middle of an anticipation cycle. -/
def fxEngineActive : AnticipationEngine :=
  { state := { active := true, target_consigne := some (39/2), target_time := some 1020,
               minutes_needed := some 30, minutes_until_target := some 30,
               optimal_start_time := some 990, started_at := some 990,
               temp_at_start := some 18 },
    last_consigne_sent := some (39/2), last_consigne_sent_time := some 990 }

/-- A benign environment: schedule at 17, climate setpoint on target, sends
succeed. -/
def fxEnv : EngineEnv :=
  { schedule_value := some 17, climate_setpoint := some (39/2), send_ok := true }

/-- A schedule entity reporting setpoint 17 with comfort 19.5 / eco 17. -/
def fxSchedVtherm : SchedState := { value := some 17, comfort := some (39/2), eco := some 17 }

/-- A schedule entity reporting setpoint 17 with no usable preset
attributes. -/
def fxSchedBare : SchedState := { value := some 17 }

/-- A fully-defaulted persisted session dict. -/
def fxSessionData : SessionData := {}

/-! ## Theorems -/

theorem le_pyRound (q : ℚ) : ⌊q⌋ ≤ pyRound q := by
  simp only [pyRound]
  split_ifs <;> omega

theorem pyRound_le (q : ℚ) : pyRound q ≤ ⌊q⌋ + 1 := by
  simp only [pyRound]
  split_ifs <;> omega

theorem pyRound_nonneg {q : ℚ} (h : 0 ≤ q) : 0 ≤ pyRound q := by
  have h1 := le_pyRound q
  have h2 : (0 : ℤ) ≤ ⌊q⌋ := Int.floor_nonneg.mpr h
  omega

/-- Python's banker's rounding is monotone non-decreasing. -/
theorem pyRound_mono {x y : ℚ} (h : x ≤ y) : pyRound x ≤ pyRound y := by
  rcases lt_or_eq_of_le (Int.floor_le_floor h) with hlt | heq
  · have h1 := pyRound_le x
    have h2 := le_pyRound y
    omega
  · have hfr : x - (⌊x⌋ : ℚ) ≤ y - (⌊y⌋ : ℚ) := by
      rw [heq]
      linarith
    simp only [pyRound]
    rw [heq]
    rw [heq] at hfr
    split_ifs <;> first | omega | linarith

/-- C1 (counterexample): with one recorded session of speed 0.05 at outdoor 5,
the selected speed is the positive 0.05 and `18 < 20`, yet
`estimate_time_to_target(18, 20, 5, margin=1.03)` returns `round(41.2) = 41`,
not `ceil(41.2) = 42`: the minutes are not `ceil(delta / speed * margin)`. -/
theorem claim1_estimate_ceil_counterexample :
    ThermalModel.get_speed_for_ext_temp fxSingleModel 5 = some (1/20) ∧
    ((0 : ℚ) < 1/20) ∧ ((18 : ℚ) < 20) ∧
    ThermalModel.estimate_time_to_target fxSingleModel 18 20 5 (103/100) = some 41 ∧
    (41 : ℚ) ≠ ((⌈((20 - 18) / (1/20) * (103/100) : ℚ)⌉ : ℤ) : ℚ) := by
  refine ⟨?_, by norm_num, by norm_num, ?_, ?_⟩
  · norm_num [ThermalModel.get_speed_for_ext_temp, fxSingleModel, fxSession1, pyRound,
      listMedian, sortAsc, insertSorted, List.filter_cons, abs_le, List.cons_ne_nil, ne_eq,
      List.getD_cons_zero, List.getD_cons_succ]
  · norm_num [ThermalModel.estimate_time_to_target, ThermalModel.get_speed_for_ext_temp,
      fxSingleModel, fxSession1, pyRound, listMedian, sortAsc, insertSorted,
      List.filter_cons, abs_le, List.cons_ne_nil, ne_eq,
      List.getD_cons_zero, List.getD_cons_succ]
  · have hc : ⌈((20 - 18) / (1/20) * (103/100) : ℚ)⌉ = 42 := by
      norm_num [Int.ceil_eq_iff]
    rw [hc]
    norm_num

/-- C1 (amended): whenever a positive speed is selected (nearby-median or
global-mean fallback) and `current_temp < target_temp`, the estimate is
`round(delta / speed * margin)` under Python's round-half-to-even — not
`ceil`; and the spec's scenario (speeds [0.05, 0.06, 0.055] at outdoor ≈ 5,
query (18, 20, 5, 1.15)) does return 42 minutes. -/
theorem claim1_estimate_round_formula
    (m : ThermalModel) (current_temp target_temp ext_temp margin speed : ℚ)
    (hs : m.get_speed_for_ext_temp ext_temp = some speed)
    (hpos : 0 < speed) (hlt : current_temp < target_temp) :
    m.estimate_time_to_target current_temp target_temp ext_temp margin =
      some ((pyRound ((target_temp - current_temp) / speed * margin) : ℤ) : ℚ) ∧
    ThermalModel.estimate_time_to_target fxScenarioModel 18 20 5 (23/20) = some 42 := by
  constructor
  · have hd : ¬ (target_temp - current_temp ≤ 0) := by linarith
    have hsp : ¬ (speed ≤ 0) := by linarith
    simp [ThermalModel.estimate_time_to_target, hd, hs, hsp]
  · norm_num [ThermalModel.estimate_time_to_target, ThermalModel.get_speed_for_ext_temp,
      fxScenarioModel, fxSession1, fxSession2, fxSession3, pyRound, listMedian, sortAsc,
      insertSorted, List.filter_cons, abs_le, List.cons_ne_nil, ne_eq,
      List.getD_cons_zero, List.getD_cons_succ]

/-- Witness for `claim1_estimate_round_formula` at the scenario model. -/
theorem claim1_estimate_round_formula_witness :
    ThermalModel.get_speed_for_ext_temp fxScenarioModel 5 = some (11/200) ∧
    ((0 : ℚ) < 11/200) ∧ ((18 : ℚ) < 20) ∧
    ThermalModel.estimate_time_to_target fxScenarioModel 18 20 5 (23/20) =
      some ((pyRound ((20 - 18) / (11/200) * (23/20)) : ℤ) : ℚ) := by
  have hs : ThermalModel.get_speed_for_ext_temp fxScenarioModel 5 = some (11/200) := by
    norm_num [ThermalModel.get_speed_for_ext_temp, fxScenarioModel, fxSession1, fxSession2,
      fxSession3, pyRound, listMedian, sortAsc, insertSorted, List.filter_cons, abs_le,
      List.cons_ne_nil, ne_eq, List.getD_cons_zero, List.getD_cons_succ]
  exact ⟨hs, by norm_num, by norm_num,
    (claim1_estimate_round_formula fxScenarioModel 18 20 5 (23/20) (11/200) hs
      (by norm_num) (by norm_num)).1⟩

/-- C6: `estimate_time_to_target` returns 0 whenever the target is at or
below the current temperature, for every model state, outdoor temperature
and margin. -/
theorem claim6_estimate_zero_target_reached (m : ThermalModel)
    (current_temp target_temp ext_temp margin : ℚ)
    (h : target_temp ≤ current_temp) :
    m.estimate_time_to_target current_temp target_temp ext_temp margin = some 0 := by
  have hd : target_temp - current_temp ≤ 0 := by linarith
  simp [ThermalModel.estimate_time_to_target, hd]

/-- Witness for `claim6_estimate_zero_target_reached` on an empty model. -/
theorem claim6_estimate_zero_target_reached_witness :
    ((20 : ℚ) ≤ 21) ∧
    ThermalModel.estimate_time_to_target {} 21 20 5 (23/20) = some 0 :=
  ⟨by norm_num, claim6_estimate_zero_target_reached {} 21 20 5 (23/20) (by norm_num)⟩

/-- C7: for a fixed selected positive speed, the estimate is monotone
non-decreasing in the delta `target - current` (for a fixed non-negative
margin), and monotone non-decreasing in the margin (for a fixed delta). -/
theorem claim7_estimate_monotone
    (m : ThermalModel) (ext_temp speed : ℚ)
    (current1 target1 current2 target2 margin margin2 : ℚ)
    (hs : m.get_speed_for_ext_temp ext_temp = some speed) (hpos : 0 < speed)
    (hm : 0 ≤ margin)
    (hdelta : target1 - current1 ≤ target2 - current2)
    (hmargin : margin ≤ margin2) :
    (∀ a b : ℚ,
      m.estimate_time_to_target current1 target1 ext_temp margin = some a →
      m.estimate_time_to_target current2 target2 ext_temp margin = some b → a ≤ b) ∧
    (∀ a b : ℚ,
      m.estimate_time_to_target current1 target1 ext_temp margin = some a →
      m.estimate_time_to_target current1 target1 ext_temp margin2 = some b → a ≤ b) := by
  have hsp : ¬ (speed ≤ 0) := by linarith
  have hform : ∀ c t mg : ℚ, m.estimate_time_to_target c t ext_temp mg =
      (if t - c ≤ 0 then some 0
       else some ((pyRound ((t - c) / speed * mg) : ℤ) : ℚ)) := by
    intro c t mg
    by_cases hd : t - c ≤ 0
    · simp [ThermalModel.estimate_time_to_target, hd]
    · simp [ThermalModel.estimate_time_to_target, hd, hs, hsp]
  constructor
  · intro a b ha hb
    rw [hform] at ha hb
    by_cases h1 : target1 - current1 ≤ 0
    · rw [if_pos h1] at ha
      have ha0 : a = 0 := by simpa using ha.symm
      subst ha0
      by_cases h2 : target2 - current2 ≤ 0
      · rw [if_pos h2] at hb
        have hb0 : b = 0 := by simpa using hb.symm
        simp [hb0]
      · rw [if_neg h2] at hb
        have hb0 : b = ((pyRound ((target2 - current2) / speed * margin) : ℤ) : ℚ) := by
          simpa using hb.symm
        subst hb0
        have harg : (0 : ℚ) ≤ (target2 - current2) / speed * margin :=
          mul_nonneg (div_nonneg (le_of_lt (not_le.mp h2)) (le_of_lt hpos)) hm
        exact_mod_cast pyRound_nonneg harg
    · rw [if_neg h1] at ha
      have h2 : ¬ (target2 - current2 ≤ 0) := by
        intro hc
        exact h1 (le_trans hdelta hc)
      rw [if_neg h2] at hb
      have ha0 : a = ((pyRound ((target1 - current1) / speed * margin) : ℤ) : ℚ) := by
        simpa using ha.symm
      have hb0 : b = ((pyRound ((target2 - current2) / speed * margin) : ℤ) : ℚ) := by
        simpa using hb.symm
      subst ha0
      subst hb0
      have harg : (target1 - current1) / speed * margin ≤
          (target2 - current2) / speed * margin := by
        apply mul_le_mul_of_nonneg_right _ hm
        exact (div_le_div_iff_of_pos_right hpos).mpr hdelta
      exact_mod_cast pyRound_mono harg
  · intro a b ha hb
    rw [hform] at ha hb
    by_cases h1 : target1 - current1 ≤ 0
    · rw [if_pos h1] at ha
      rw [if_pos h1] at hb
      have ha0 : a = 0 := by simpa using ha.symm
      have hb0 : b = 0 := by simpa using hb.symm
      simp [ha0, hb0]
    · rw [if_neg h1] at ha
      rw [if_neg h1] at hb
      have ha0 : a = ((pyRound ((target1 - current1) / speed * margin) : ℤ) : ℚ) := by
        simpa using ha.symm
      have hb0 : b = ((pyRound ((target1 - current1) / speed * margin2) : ℤ) : ℚ) := by
        simpa using hb.symm
      subst ha0
      subst hb0
      have hx : (0 : ℚ) ≤ (target1 - current1) / speed :=
        div_nonneg (le_of_lt (not_le.mp h1)) (le_of_lt hpos)
      have harg : (target1 - current1) / speed * margin ≤
          (target1 - current1) / speed * margin2 :=
        mul_le_mul_of_nonneg_left hmargin hx
      exact_mod_cast pyRound_mono harg

/-- Witness for `claim7_estimate_monotone`: speed 0.05, deltas 2 and 3,
margins 1 and 1.15, giving 40 ≤ 60 and 40 ≤ 46. -/
theorem claim7_estimate_monotone_witness :
    ((0 : ℚ) < 1/20) ∧ ((0 : ℚ) ≤ 1) ∧ ((40 : ℚ) ≤ 60) ∧ ((40 : ℚ) ≤ 46) := by
  have hs : ThermalModel.get_speed_for_ext_temp fxSingleModel 5 = some (1/20) := by
    norm_num [ThermalModel.get_speed_for_ext_temp, fxSingleModel, fxSession1, pyRound,
      listMedian, sortAsc, insertSorted, List.filter_cons, abs_le, List.cons_ne_nil, ne_eq,
      List.getD_cons_zero, List.getD_cons_succ]
  have recipe1 : ThermalModel.estimate_time_to_target fxSingleModel 18 20 5 1 = some 40 := by
    norm_num [ThermalModel.estimate_time_to_target, ThermalModel.get_speed_for_ext_temp,
      fxSingleModel, fxSession1, pyRound, listMedian, sortAsc, insertSorted,
      List.filter_cons, abs_le, List.cons_ne_nil, ne_eq,
      List.getD_cons_zero, List.getD_cons_succ]
  have recipe2 : ThermalModel.estimate_time_to_target fxSingleModel 18 21 5 1 = some 60 := by
    norm_num [ThermalModel.estimate_time_to_target, ThermalModel.get_speed_for_ext_temp,
      fxSingleModel, fxSession1, pyRound, listMedian, sortAsc, insertSorted,
      List.filter_cons, abs_le, List.cons_ne_nil, ne_eq,
      List.getD_cons_zero, List.getD_cons_succ]
  have recipe3 : ThermalModel.estimate_time_to_target fxSingleModel 18 20 5 (23/20) = some 46 := by
    norm_num [ThermalModel.estimate_time_to_target, ThermalModel.get_speed_for_ext_temp,
      fxSingleModel, fxSession1, pyRound, listMedian, sortAsc, insertSorted,
      List.filter_cons, abs_le, List.cons_ne_nil, ne_eq,
      List.getD_cons_zero, List.getD_cons_succ]
  have hmono := claim7_estimate_monotone fxSingleModel 5 (1/20) 18 20 18 21 1 (23/20)
    hs (by norm_num) (by norm_num) (by norm_num) (by norm_num)
  exact ⟨by norm_num, by norm_num, hmono.1 40 60 recipe1 recipe2,
    hmono.2 40 46 recipe1 recipe3⟩

/-- Adding a session can never leave the model's history above 100 entries,
whatever its starting length. -/
theorem add_session_length_le (m : ThermalModel) (s : HeatingSession) :
    (m.add_session s).sessions.length ≤ 100 := by
  show (if (m.sessions ++ [s]).length > 100
        then (m.sessions ++ [s]).drop ((m.sessions ++ [s]).length - 100)
        else m.sessions ++ [s]).length ≤ 100
  split_ifs with hc
  · rw [List.length_drop]
    omega
  · omega

/-- A completed `record_result` can never leave the feedback history above
`MAX_HISTORY` entries, whatever its starting length. -/
theorem record_result_length_le (fb : FeedbackLoop) (p : PendingStart)
    (now current_temp : ℚ) (reached : Bool) (hp : fb.pending_start = some p) :
    (fb.record_result now current_temp reached).1.history.length ≤ MAX_HISTORY := by
  simp only [FeedbackLoop.record_result, hp]
  split_ifs with hc
  · rw [List.length_drop]
    omega
  · omega

/-- C4: at capacity, `add_session` keeps the thermal history at 100 entries
dropping exactly the head (oldest), a completed `record_result` keeps the
feedback history at 30 entries dropping exactly the head, and one insertion
never leaves either history above its capacity. -/
theorem claim4_bounded_history_eviction
    (l lbig : List HeatingSession) (s : HeatingSession)
    (fb fbo : FeedbackLoop) (p po : PendingStart)
    (now current_temp : ℚ) (reached : Bool)
    (hl : l.length = 100)
    (hfb : fb.pending_start = some p) (hfh : fb.history.length = 30)
    (hfbo : fbo.pending_start = some po) :
    (ThermalModel.add_session { sessions := l } s).sessions = l.drop 1 ++ [s] ∧
    (ThermalModel.add_session { sessions := l } s).sessions.length = 100 ∧
    (fb.record_result now current_temp reached).1.history =
      fb.history.drop 1 ++ [FeedbackLoop.mkResult p now current_temp reached] ∧
    (fb.record_result now current_temp reached).1.history.length = 30 ∧
    (ThermalModel.add_session { sessions := lbig } s).sessions.length ≤ 100 ∧
    (fbo.record_result now current_temp reached).1.history.length ≤ 30 := by
  have hlen : (l ++ [s]).length = 101 := by simp [hl]
  have hcond : (l ++ [s]).length > 100 := by omega
  have hdrop : (l ++ [s]).drop ((l ++ [s]).length - 100) = l.drop 1 ++ [s] := by
    have h1 : (l ++ [s]).length - 100 = 1 := by omega
    rw [h1]
    refine List.drop_append_of_le_length ?_
    omega
  have hadd : (ThermalModel.add_session { sessions := l } s).sessions =
      (if (l ++ [s]).length > 100
       then (l ++ [s]).drop ((l ++ [s]).length - 100) else l ++ [s]) := rfl
  have hfblen : (fb.history ++ [FeedbackLoop.mkResult p now current_temp reached]).length = 31 := by
    simp [hfh]
  have hfbcond : (fb.history ++ [FeedbackLoop.mkResult p now current_temp reached]).length
      > MAX_HISTORY := by
    rw [hfblen]
    norm_num [MAX_HISTORY]
  have hfbdrop : (fb.history ++ [FeedbackLoop.mkResult p now current_temp reached]).drop
      ((fb.history ++ [FeedbackLoop.mkResult p now current_temp reached]).length - MAX_HISTORY) =
      fb.history.drop 1 ++ [FeedbackLoop.mkResult p now current_temp reached] := by
    have h1 : (fb.history ++ [FeedbackLoop.mkResult p now current_temp reached]).length
        - MAX_HISTORY = 1 := by
      rw [hfblen]
      simp [MAX_HISTORY]
    rw [h1]
    refine List.drop_append_of_le_length ?_
    omega
  have hrec : (fb.record_result now current_temp reached).1.history =
      fb.history.drop 1 ++ [FeedbackLoop.mkResult p now current_temp reached] := by
    simp only [FeedbackLoop.record_result, hfb]
    rw [if_pos hfbcond, hfbdrop]
  refine ⟨?_, ?_, hrec, ?_, add_session_length_le _ _, record_result_length_le fbo po _ _ _ hfbo⟩
  · rw [hadd, if_pos hcond, hdrop]
  · rw [hadd, if_pos hcond, hdrop]
    simp [hl]
  · rw [hrec]
    simp [hfh]

/-- Witness for `claim4_bounded_history_eviction` at concrete full
histories. -/
theorem claim4_bounded_history_eviction_witness :
    (List.replicate 100 fxSession1).length = 100 ∧
    (ThermalModel.add_session { sessions := List.replicate 100 fxSession1 } fxSession2).sessions.length = 100 ∧
    (fxFeedbackFull.record_result 0 19 true).1.history.length = 30 ∧
    (fxFeedbackOver.record_result 0 19 true).1.history.length ≤ 30 := by
  have h := claim4_bounded_history_eviction (List.replicate 100 fxSession1)
    (List.replicate 150 fxSession1) fxSession2 fxFeedbackFull fxFeedbackOver {} {}
    0 19 true (by simp) rfl (by simp [fxFeedbackFull]) rfl
  exact ⟨by simp, h.2.1, h.2.2.2.1, h.2.2.2.2.2⟩

/-- C10: `load_sessions` stores exactly the decoded list, so a persisted
list longer than 100 leaves the history above the documented capacity; the
bound is only re-established by the next `add_session`. -/
theorem claim10_load_sessions_uncapped (data : List SessionData)
    (hd : 100 < data.length) :
    (ThermalModel.load_sessions data).sessions = data.map HeatingSession.from_dict ∧
    100 < (ThermalModel.load_sessions data).sessions.length ∧
    ∀ s, ((ThermalModel.load_sessions data).add_session s).sessions.length ≤ 100 := by
  refine ⟨rfl, ?_, fun s => add_session_length_le _ s⟩
  simpa [ThermalModel.load_sessions] using hd

/-- Witness for `claim10_load_sessions_uncapped` on a 101-entry persisted
list. -/
theorem claim10_load_sessions_uncapped_witness :
    100 < (List.replicate 101 fxSessionData).length ∧
    100 < (ThermalModel.load_sessions (List.replicate 101 fxSessionData)).sessions.length :=
  ⟨by simp, (claim10_load_sessions_uncapped _ (by simp)).2.1⟩

/-- C3: `get_margin_suggestion` yields no suggestion when fewer than 3 of the
last 10 results qualify, and otherwise a value in `[-2*step, +2*step]`
determined by the mean minutes-early over that window, raised to at least
`+2*step` whenever the window's success rate is below 70%. -/
theorem claim3_margin_suggestion_policy (fb : FeedbackLoop) (v : ℚ) :
    ((lastN 10 fb.history).length < 3 → fb.get_margin_suggestion = none) ∧
    (3 ≤ (lastN 10 fb.history).length → fb.get_margin_suggestion ≠ none) ∧
    (fb.get_margin_suggestion = some v →
      -(MARGIN_ADJUST_STEP * 2) ≤ v ∧ v ≤ MARGIN_ADJUST_STEP * 2 ∧
      ((((lastN 10 fb.history).filter (·.success)).length : ℚ) /
          ((lastN 10 fb.history).length : ℚ) < 7/10 →
        MARGIN_ADJUST_STEP * 2 ≤ v) ∧
      (¬ ((((lastN 10 fb.history).filter (·.success)).length : ℚ) /
          ((lastN 10 fb.history).length : ℚ) < 7/10) →
        v = (if listMean ((lastN 10 fb.history).map (·.minutes_early)) > 10 then
               -MARGIN_ADJUST_STEP * 2
             else if listMean ((lastN 10 fb.history).map (·.minutes_early)) > 5 then
               -MARGIN_ADJUST_STEP
             else if listMean ((lastN 10 fb.history).map (·.minutes_early)) < 0 then
               MARGIN_ADJUST_STEP * 2
             else if listMean ((lastN 10 fb.history).map (·.minutes_early)) < 2 then
               MARGIN_ADJUST_STEP
             else 0))) := by
  refine ⟨?_, ?_, ?_⟩
  · intro h
    simp [FeedbackLoop.get_margin_suggestion, h]
  · intro h
    have hn : ¬ ((lastN 10 fb.history).length < 3) := by omega
    simp [FeedbackLoop.get_margin_suggestion, hn]
  · intro hv
    simp only [FeedbackLoop.get_margin_suggestion] at hv
    by_cases hlen : (lastN 10 fb.history).length < 3
    · rw [if_pos hlen] at hv
      exact absurd hv (by simp)
    · rw [if_neg hlen] at hv
      have hv' : v = _ := (Option.some.inj hv).symm
      subst hv'
      refine ⟨?_, ?_, ?_, ?_⟩
      · split_ifs <;> norm_num [pyRoundTo, pyRound, MARGIN_ADJUST_STEP, max_def]
      · split_ifs <;> norm_num [pyRoundTo, pyRound, MARGIN_ADJUST_STEP, max_def]
      · intro hrate
        split_ifs <;>
          first
            | (exact absurd hrate (by assumption))
            | norm_num [pyRoundTo, pyRound, MARGIN_ADJUST_STEP, max_def]
      · intro hrate
        split_ifs <;>
          first
            | (exact absurd (by assumption) hrate)
            | norm_num [pyRoundTo, pyRound, MARGIN_ADJUST_STEP, max_def]

/-- Witness for `claim3_margin_suggestion_policy` on a three-result history
(mean minutes-early negative, success rate 2/3): suggestion +2*step. -/
theorem claim3_margin_suggestion_policy_witness :
    fxFeedbackLoShort.get_margin_suggestion = some (1/25) ∧
    -(MARGIN_ADJUST_STEP * 2) ≤ (1/25 : ℚ) ∧ (1/25 : ℚ) ≤ MARGIN_ADJUST_STEP * 2 := by
  have hgm : fxFeedbackLoShort.get_margin_suggestion = some (1/25) := by
    norm_num [FeedbackLoop.get_margin_suggestion, fxFeedbackLoShort, fxResClose, fxResLate,
      lastN, listMean, List.filter_cons, pyRoundTo, pyRound, MARGIN_ADJUST_STEP, max_def]
  have h := (claim3_margin_suggestion_policy fxFeedbackLoShort (1/25)).2.2 hgm
  exact ⟨hgm, h.1, h.2.1⟩

/-- C2: with the anti-short-cycle gate set, an idle engine is still idle
after `async_evaluate`, for every combination of the other inputs. -/
theorem claim2_anti_cycle_blocks_activation
    (eng : AnticipationEngine) (env : EngineEnv) (now : ℚ)
    (temp_indoor temp_outdoor minutes_needed next_consigne : Option ℚ)
    (target_time : Option ℚ) (effective_margin : ℚ)
    (h : eng.state.active = false) :
    (eng.async_evaluate env now temp_indoor temp_outdoor minutes_needed next_consigne
      true target_time effective_margin).state.active = false := by
  cases temp_indoor <;> cases next_consigne <;> cases minutes_needed <;>
    simp [AnticipationEngine.async_evaluate, h]

/-- Witness for `claim2_anti_cycle_blocks_activation`: an idle engine that
would otherwise start (cold room, imminent transition) stays idle. -/
theorem claim2_anti_cycle_blocks_activation_witness :
    fxEngineIdle.state.active = false ∧
    (fxEngineIdle.async_evaluate fxEnv 1000 (some 18) (some 5) (some 30) (some (39/2))
      true (some 1020) (23/20)).state.active = false :=
  ⟨rfl, claim2_anti_cycle_blocks_activation fxEngineIdle fxEnv 1000 (some 18) (some 5)
    (some 30) (some (39/2)) (some 1020) (23/20) rfl⟩

/-- C5: whenever the engine is active, inputs are available and the indoor
temperature is at or above `next_consigne - 0.2`, that evaluation call
deactivates the engine and resets its state. -/
theorem claim5_deactivates_once_target_crossed
    (eng : AnticipationEngine) (env : EngineEnv) (now : ℚ)
    (temp_outdoor : Option ℚ) (ti mn nc : ℚ) (anti : Bool)
    (target_time : Option ℚ) (effective_margin : ℚ)
    (hactive : eng.state.active = true)
    (htemp : ti ≥ nc - 1/5) :
    eng.async_evaluate env now (some ti) temp_outdoor (some mn) (some nc)
        anti target_time effective_margin = eng.deactivate ∧
    (eng.async_evaluate env now (some ti) temp_outdoor (some mn) (some nc)
        anti target_time effective_margin).state.active = false ∧
    (eng.async_evaluate env now (some ti) temp_outdoor (some mn) (some nc)
        anti target_time effective_margin).state = {} := by
  have h1 : eng.async_evaluate env now (some ti) temp_outdoor (some mn) (some nc)
      anti target_time effective_margin = eng.deactivate := by
    simp only [AnticipationEngine.async_evaluate]
    rw [if_pos htemp]
    simp [hactive]
  exact ⟨h1, by rw [h1]; rfl, by rw [h1]; rfl⟩

/-- Witness for `claim5_deactivates_once_target_crossed`: an active engine
whose zone has just reached 19.5 °C against a 19.5 °C setpoint. -/
theorem claim5_deactivates_once_target_crossed_witness :
    fxEngineActive.state.active = true ∧ ((39/2 : ℚ) ≥ 39/2 - 1/5) ∧
    (fxEngineActive.async_evaluate fxEnv 1015 (some (39/2)) (some 5) (some 30)
      (some (39/2)) false (some 1020) (23/20)).state.active = false :=
  ⟨rfl, by norm_num,
    (claim5_deactivates_once_target_crossed fxEngineActive fxEnv 1015 (some 5)
      (39/2) 30 (39/2) false (some 1020) (23/20) rfl (by norm_num)).2.1⟩

/-- C8: a failed (raising) `_send_consigne` is caught and leaves the whole
engine record unchanged: the active flag is preserved, the resend decision
on the next cycle is computed from the same data, and a subsequent
evaluation behaves exactly as if the failed send had not happened. -/
theorem claim8_failed_send_preserves_state
    (eng : AnticipationEngine) (temperature now : ℚ)
    (hactive : eng.state.active = true) :
    eng.send_consigne temperature now false = eng ∧
    (eng.send_consigne temperature now false).state.active = true ∧
    (∀ (env2 : EngineEnv) (now2 : ℚ),
      (eng.send_consigne temperature now false).should_resend env2 now2 =
        eng.should_resend env2 now2) ∧
    (∀ (env2 : EngineEnv) (now2 : ℚ)
        (ti to2 mn nc : Option ℚ) (anti : Bool) (tt : Option ℚ) (margin : ℚ),
      (eng.send_consigne temperature now false).async_evaluate env2 now2 ti to2 mn nc
          anti tt margin =
        eng.async_evaluate env2 now2 ti to2 mn nc anti tt margin) := by
  have h : eng.send_consigne temperature now false = eng := rfl
  refine ⟨h, ?_, ?_, ?_⟩
  · rw [h]
    exact hactive
  · intro env2 now2
    rw [h]
  · intro env2 now2 ti to2 mn nc anti tt margin
    rw [h]

/-- Witness for `claim8_failed_send_preserves_state` on an active engine. -/
theorem claim8_failed_send_preserves_state_witness :
    fxEngineActive.state.active = true ∧
    fxEngineActive.send_consigne 21 1000 false = fxEngineActive :=
  ⟨rfl, (claim8_failed_send_preserves_state fxEngineActive 21 1000 rfl).1⟩

/-- C9: when the event-list strategy yields no transition, the parser
reports a timeless transition to comfort exactly when comfort/eco are
exposed, the current setpoint is at or near eco, and comfort exceeds eco by
more than 0.3; when the preset strategy also fails it reports the current
setpoint as both current and target with no transition time. -/
theorem claim9_preset_then_fallback
    (st : SchedState) (cur comfort eco : ℚ)
    (hv : st.value = some cur) :
    (st.comfort = some comfort → st.eco = some eco →
      (ScheduleParser.get_next_heating_transition st none =
          some { target_time := none, target_temp := comfort,
                 current_temp_schedule := cur, source := "vtherm_preset" } ↔
        (cur ≤ eco + 3/10 ∧ comfort > eco + 3/10))) ∧
    (ScheduleParser.parse_vtherm_attrs st cur = none →
      ScheduleParser.get_next_heating_transition st none =
        some { target_time := none, target_temp := cur,
               current_temp_schedule := cur, source := "current_only" }) := by
  constructor
  · intro hc he
    simp only [ScheduleParser.get_next_heating_transition, hv]
    simp only [ScheduleParser.parse_vtherm_attrs, hc, he]
    by_cases hcond : cur ≤ eco + 3/10 ∧ comfort > eco + 3/10
    · rw [if_pos hcond]
      simp [hcond]
    · rw [if_neg hcond]
      constructor
      · intro hres
        exact absurd hres (by simp)
      · intro hcontra
        exact absurd hcontra hcond
  · intro hp
    simp [ScheduleParser.get_next_heating_transition, hv, hp]

/-- Witness for `claim9_preset_then_fallback`: a schedule at eco 17 with
comfort 19.5 yields the preset transition; one without preset attributes
yields the current-only fallback. -/
theorem claim9_preset_then_fallback_witness :
    ScheduleParser.get_next_heating_transition fxSchedVtherm none =
      some { target_time := none, target_temp := 39/2,
             current_temp_schedule := 17, source := "vtherm_preset" } ∧
    ScheduleParser.get_next_heating_transition fxSchedBare none =
      some { target_time := none, target_temp := 17,
             current_temp_schedule := 17, source := "current_only" } :=
  ⟨((claim9_preset_then_fallback fxSchedVtherm 17 (39/2) 17 rfl).1 rfl rfl).mpr
      (by norm_num),
    (claim9_preset_then_fallback fxSchedBare 17 0 0 rfl).2 rfl⟩
